import Mathlib

/-!
Shallow embedding of the simplequi drawing/lifecycle core (src/simplequi),
written to check the natural-language specification against the code.

Modelling conventions:
* Python numbers (ints and floats) are modelled as exact rationals `ℚ`;
  `int(x)` is truncation toward zero (`pytrunc`).
* Angles passed to the canvas are radians; since every use divides by `2*pi`,
  an angle is represented by its coefficient `q` with `radians = q * pi`,
  so the source expression `360 * 16 * rads / (2 * pi)` becomes
  `360 * 16 * q / 2` under exact real arithmetic.
* Fallible Python code is embedded in `Except PyErr`; an exception that a
  call raises is the `.error` case, mutations performed before the raise are
  reflected in the returned state where relevant.
* Qt classes that the repository only calls into (QColor name validation,
  QImage decoding, QPainter operations) are modelled as small value types
  recording exactly the calls the source makes.
-/

/-- Kinds of Python exception that the embedded code can raise. -/
inductive PyErr
  | typeError
  | valueError
  | indexError
  | attributeError
  | importError
  deriving DecidableEq, Repr

/-- Python `int(q)` on a number: truncation toward zero.  Since the
denominator of a rational is positive, truncating division of the numerator
by the denominator is exactly that. -/
def pytrunc (q : ℚ) : ℤ :=
  Int.tdiv q.num q.den

/-- The universe of Python values passed as point arguments to the canvas API:
a number, a 2-element tuple of numbers (a point), or a list of such tuples
(a point list). -/
inductive PyVal
  | num (q : ℚ)
  | pt (x y : ℚ)
  | pts (l : List (ℚ × ℚ))
  deriving DecidableEq, Repr

/-- Python subscription `v[i]`: numbers are not subscriptable (TypeError),
out-of-range indices raise IndexError. -/
def pyindex : PyVal → ℕ → Except PyErr PyVal
  | .num _, _ => .error .typeError
  | .pt x _, 0 => .ok (.num x)
  | .pt _ y, 1 => .ok (.num y)
  | .pt _ _, _ => .error .indexError
  | .pts l, i => match l.get? i with
    | some p => .ok (.pt p.1 p.2)
    | none => .error .indexError

/-- Python `int(v)` on an arbitrary value: only numbers convert, a tuple or
list raises TypeError. -/
def pyint : PyVal → Except PyErr ℤ
  | .num q => .ok (pytrunc q)
  | .pt _ _ => .error .typeError
  | .pts _ => .error .typeError

/-- Body of `Canvas.__ensure_int_coords` (src/simplequi/_canvas.py lines
445-453) for one argument `coord`: `(int(coord[0]), int(coord[1]))`,
evaluating `int(coord[0])` first.  When the caller passes a single argument
the source returns this pair directly (`res[0] if len(res) == 1 else res`). -/
def ensure_int_coord (coord : PyVal) : Except PyErr (ℤ × ℤ) := do
  let a ← pyindex coord 0
  let x ← pyint a
  let b ← pyindex coord 1
  let y ← pyint b
  .ok (x, y)

/-- `Canvas.__ensure_int_coords` applied to several arguments: each argument
is converted by `ensure_int_coord` in order, and the list of results is
returned. -/
def ensure_int_coords (coords : List PyVal) : Except PyErr (List (ℤ × ℤ)) :=
  coords.mapM ensure_int_coord

/-- `Canvas.__ensure_int_values` (src/simplequi/_canvas.py lines 455-462) for
one numeric argument: `int(val)`. -/
def ensure_int_value (v : ℚ) : ℤ :=
  pytrunc v

/-!
## Application lifecycle (src/simplequi/_app.py)

`_AppWithRunningFlag` keeps a set `tracked` of live resources, counts open
top-level widgets, and defers its exit check with `QTimer.singleShot`.
The state below records the tracked set, the open top-level widgets, the
number of queued (not yet run) `__check_for_exit` callbacks, and the
`__is_running` flag.
-/

structure AppState where
  tracked : Finset ℕ
  topLevelWidgets : Finset ℕ
  pendingChecks : ℕ
  running : Bool
  deriving DecidableEq

/-- `_AppWithRunningFlag.add_tracked` (src/simplequi/_app.py lines 64-72):
`self.tracked.add(obj)` and nothing else. -/
def add_tracked (obj : ℕ) (s : AppState) : AppState :=
  { s with tracked := insert obj s.tracked }

/-- `_AppWithRunningFlag.__queue_check_for_exit` (lines 84-90):
`QTimer.singleShot(wait, self.__check_for_exit)` queues one deferred check. -/
def queue_check_for_exit (s : AppState) : AppState :=
  { s with pendingChecks := s.pendingChecks + 1 }

/-- `_AppWithRunningFlag.remove_tracked` (lines 74-82):
`if obj in self.tracked: self.tracked.remove(obj)` — so an unknown object is
ignored without error — then `self.__queue_check_for_exit()`. -/
def remove_tracked (obj : ℕ) (s : AppState) : AppState :=
  queue_check_for_exit { s with tracked := s.tracked.erase obj }

/-- `_AppWithRunningFlag.exit` (lines 50-57): clears `__is_running` and stops
the event loop. -/
def app_exit (s : AppState) : AppState :=
  { s with running := false }

/-- `_AppWithRunningFlag.__check_for_exit` (lines 92-96), run when one queued
deferred check fires: `if not self.tracked and not self.topLevelWidgets():
self.exit()`.  The condition reads the state at the moment the check runs. -/
def check_for_exit (s : AppState) : AppState :=
  let s1 := { s with pendingChecks := s.pendingChecks - 1 }
  if s1.tracked = ∅ ∧ s1.topLevelWidgets = ∅ then app_exit s1 else s1

/-!
## The missing timer-tracking attributes (src/simplequi/_timer.py)

`StartStopTimer.start` is `super().start(); TheApp.add_timer(self)` and
`StartStopTimer.stop` is `super().stop(); TheApp.remove_timer(self)`.
Python resolves the names `TheApp` (imported with `from ._app import TheApp`)
and `add_timer` / `remove_timer` (attribute lookups on the application
object) at run time, so the embedding records the names that the `_app`
module and the `_AppWithRunningFlag` class actually define.
-/

/-- Top-level names defined by module src/simplequi/_app.py: its imports and
its three definitions.  No `TheApp` is among them. -/
def appModuleNames : List String :=
  ["atexit", "QTimer", "QApplication", "DOCS_BUILD",
   "_AppWithRunningFlag", "get_app", "start_app"]

/-- Attributes defined on class `_AppWithRunningFlag`
(src/simplequi/_app.py lines 30-96), with Python private-name mangling. -/
def appClassAttrs : List String :=
  ["_AppWithRunningFlag__is_running", "tracked", "__init__", "exec_",
   "exit", "is_running", "add_tracked", "remove_tracked",
   "_AppWithRunningFlag__queue_check_for_exit",
   "_AppWithRunningFlag__check_for_exit"]

/-- Resolution of `from ._app import TheApp` (src/simplequi/_timer.py line
23): ImportError when the module defines no such name. -/
def import_TheApp : Except PyErr Unit :=
  if appModuleNames.contains ("TheApp") then .ok () else .error .importError

/-- `StartStopTimer.start` (src/simplequi/_timer.py lines 31-33), applied to
the application state and the timer identity `t`.  The module import must
succeed for the class to exist at all; then `TheApp.add_timer(self)` looks up
`add_timer` on the application object and would have to call it.  Neither
name exists, so the call raises before the tracked set can change. -/
def startStopTimer_start (s : AppState) (t : ℕ) : Except PyErr AppState := do
  import_TheApp
  if appClassAttrs.contains ("add_timer") then
    .ok (add_tracked t s)
  else
    .error .attributeError

/-- `StartStopTimer.stop` (src/simplequi/_timer.py lines 35-37):
`TheApp.remove_timer(self)`, with the same two missing names. -/
def startStopTimer_stop (s : AppState) (t : ℕ) : Except PyErr AppState := do
  import_TheApp
  if appClassAttrs.contains ("remove_timer") then
    .ok (remove_tracked t s)
  else
    .error .attributeError

/-!
## Colour parsing (src/simplequi/_colours.py)

`get_colour` turns a colour string into a QColor: named colours (via Qt's
`QColor.isValidColor` / `QColor(name)`), CSS `rgb()/rgba()` and `hsl()/hsla()`
strings (parsed with the regex `(\d+\.?\d*)`), anything else raises
ValueError.  The module-level `COLOUR_MAP` is pure memoisation, so the
embedding is a pure function.
-/

/-- Python `str.lower()` for one character; the colour strings involved are
ASCII, where lowering adds 32 to an upper-case letter. -/
def pyCharLower (c : Char) : Char :=
  if 65 ≤ c.toNat ∧ c.toNat ≤ 90 then Char.ofNat (c.toNat + 32) else c

/-- Python `str.lower()`. -/
def pyLower (s : String) : String :=
  ⟨s.data.map pyCharLower⟩

/-- Python `s.startswith(p)`. -/
def pyStartsWith (s p : String) : Bool :=
  p.data.isPrefixOf s.data

/-- The colour names pre-cached in `COLOUR_MAP` at module import
(src/simplequi/_colours.py lines 54-74), exactly as capitalised there. -/
def initialColourNames : List String :=
  ["Aqua", "Black", "Blue", "Fuchsia", "Gray", "Green", "Lime", "Maroon",
   "Navy", "Olive", "Orange", "Purple", "Red", "Silver", "Teal", "White",
   "Yellow"]

/-- Lower-case colour names accepted by Qt's `QColor.isValidColor` (the SVG
colour-name table, external to the repository).  The list models the table:
it contains every name the repository and its tests use; a string that is
neither in the table (case-insensitively) nor a `#`-hex string is invalid
for Qt. -/
def qtColourNames : List String :=
  ["aqua", "aquamarine", "black", "blue", "darkgrey", "darkviolet",
   "fuchsia", "gray", "green", "grey", "lime", "maroon", "navy", "olive",
   "orange", "purple", "red", "silver", "teal", "white", "yellow"]

/-- Whether a character is a hexadecimal digit. -/
def isHexColourDigit (c : Char) : Bool :=
  c.isDigit || ("abcdefABCDEF".toList.contains c)

/-- Model of Qt's `QColor.isValidColor` (external): a known colour name
(case-insensitive) or a `#`-prefixed hex string of a valid length. -/
def qcolor_isValidColor (name : String) : Bool :=
  (pyStartsWith name ("#") && name.length > 1
    && (name.data.drop 1).all isHexColourDigit
    && [3, 6, 8, 9, 12].contains (name.length - 1))
  || qtColourNames.contains (pyLower name)

/-- Numeric value of a list of decimal digit characters. -/
def digitsVal (ds : List Char) : ℕ :=
  ds.foldl (fun acc c => acc * 10 + (c.toNat - 48)) 0

/-- Value of one match of the regex `(\d+\.?\d*)`: an integer part and an
optional fractional part. -/
def numToken (intPart fracPart : List Char) : ℚ :=
  (digitsVal intPart : ℚ) + (digitsVal fracPart : ℚ) / (10 ^ fracPart.length)

/-- One step of `re.findall` for the pattern `(\d+\.?\d*)`: scan left to
right, at each digit take the maximal `\d+\.?\d*` match.  Fuel-indexed; each
step consumes at least one character. -/
def findNumbersAux : ℕ → List Char → List ℚ
  | 0, _ => []
  | _ + 1, [] => []
  | fuel + 1, c :: rest =>
    if c.isDigit then
      let ds := (c :: rest).takeWhile Char.isDigit
      let rest1 := (c :: rest).dropWhile Char.isDigit
      match rest1 with
      | '.' :: rest2 =>
        let ds2 := rest2.takeWhile Char.isDigit
        let rest3 := rest2.dropWhile Char.isDigit
        numToken ds ds2 :: findNumbersAux fuel rest3
      | _ => numToken ds [] :: findNumbersAux fuel rest1
    else
      findNumbersAux fuel rest

/-- `NUM_RE.findall(text)` for `NUM_RE = (\d+\.?\d*)`. -/
def findNumbers (text : String) : List ℚ :=
  findNumbersAux text.length text.toList

/-- A QColor as the repository constructs them: by name, or through
`QColor.fromRgbF` / `QColor.fromHslF` with the parsed value list.  Qt name
lookup is case-insensitive, so named colours carry the lower-cased name. -/
inductive Colour
  | named (lowerName : String)
  | fromRgbF (vals : List ℚ)
  | fromHslF (vals : List ℚ)
  deriving DecidableEq, Repr

/-- Conversion factors of `ColourTypes.RGB` (src/simplequi/_colours.py). -/
def rgbFactors : List ℚ := [255, 255, 255, 1]

/-- Conversion factors of `ColourTypes.RGB_PCT`. -/
def rgbPctFactors : List ℚ := [100, 100, 100, 1]

/-- Conversion factors of `ColourTypes.HSL`. -/
def hslFactors : List ℚ := [360, 100, 100, 1]

/-- `_get_float_colour_values` (src/simplequi/_colours.py lines 77-89):
extract the numbers, divide by the factors (`zip` truncates to the shorter
list), then require at least three values, all within `[0, 1]`. -/
def get_float_colour_values (text : String) (factors : List ℚ) :
    Except PyErr (List ℚ) :=
  let numbers := ((findNumbers text).zip factors).map (fun p => p.1 / p.2)
  if numbers.length < 3 then .error .valueError
  else if ¬ (numbers.all (fun x => decide (0 ≤ x) && decide (x ≤ 1))) then
    .error .valueError
  else .ok numbers

/-- `get_colour` (src/simplequi/_colours.py lines 100-119) as a pure
function; the `COLOUR_MAP` cache writes are memoisation only.  The source's
TypeError branch for non-string input is outside this typed embedding. -/
def get_colour (name : String) : Except PyErr Colour :=
  if initialColourNames.contains name then .ok (.named (pyLower name))
  else if qcolor_isValidColor name then .ok (.named (pyLower name))
  else if pyStartsWith (pyLower name) ("rgb") then
    let factors := if name.data.contains '%' then rgbPctFactors else rgbFactors
    (get_float_colour_values name factors).map Colour.fromRgbF
  else if pyStartsWith (pyLower name) ("hsl") then
    (get_float_colour_values name hslFactors).map Colour.fromHslF
  else .error .valueError

/-!
## Fonts (src/simplequi/_fonts.py)
-/

/-- The values of the `FontFace` enum. -/
def fontFaceValues : List String := ["serif", "sans-serif", "monospace"]

/-- A QFont as `get_font` configures it: pixel size and requested face. -/
structure Font where
  pixelSize : ℤ
  face : String
  deriving DecidableEq, Repr

/-- `get_font` (src/simplequi/_fonts.py): `_check_is_valid_font` rejects a
non-positive size with ValueError, then `FontFace(font_spec.face)` raises
ValueError for an unknown face; the `FONT_CACHE` is memoisation only. -/
def get_font (size : ℤ) (face : String) : Except PyErr Font :=
  if size ≤ 0 then .error .valueError
  else if fontFaceValues.contains face then .ok ⟨size, face⟩
  else .error .valueError

/-!
## Image assets and the pixmap cache (src/simplequi/_image.py)

`_IMAGE_CACHE[self]` is `None` while an image is loading and holds the
decoded QImage afterwards; `_PIXMAP_CACHE[self]` maps a
`(image_coords, image_rect, target_rect, rotation)` key to the prepared
QPixmap.  The state of one Image handle is both of its cache slots.
-/

/-- A decoded QImage: its pixel dimensions.  A QImage constructed from
undecodable data is the null image, whose width and height are 0. -/
structure QImageModel where
  width : ℤ
  height : ℤ
  deriving DecidableEq, Repr

/-- A QImage-valued expression as built by `get_pixmap`: the decoded source,
a `copy` of a sub-rectangle, a `scaled` version, or a `transformed`
(rotated) version. -/
inductive QImageVal
  | base (img : QImageModel)
  | copy (src : QImageModel) (x y w h : ℚ)
  | scaled (i : QImageVal) (w h : ℚ)
  | transformed (i : QImageVal) (rotation : ℚ)
  deriving DecidableEq, Repr

/-- A QPixmap, produced by `QPixmap.fromImage`. -/
structure Pixmap where
  fromImage : QImageVal
  deriving DecidableEq, Repr

/-- Key of the per-image pixmap cache:
`(image_coords, image_rect, target_rect, rotation)`. -/
abbrev PixKey := (ℚ × ℚ) × (ℚ × ℚ) × (ℚ × ℚ) × ℚ

/-- Dictionary lookup `_PIXMAP_CACHE[image].get(key)` on an association
list. -/
def lookupKey (k : PixKey) : List (PixKey × Pixmap) → Option Pixmap
  | [] => none
  | (k2, p) :: rest => if k = k2 then some p else lookupKey k rest

/-- The cache state of one Image handle: its `_IMAGE_CACHE` slot (None while
loading) and its `_PIXMAP_CACHE` dictionary. -/
structure ImageState where
  imageCache : Option QImageModel
  pixmapCache : List (PixKey × Pixmap)
  deriving DecidableEq

/-- `Image.get_width` (src/simplequi/_image.py lines 65-70): 0 while
`_IMAGE_CACHE[self]` is None, otherwise the decoded image's width. -/
def ImageState.get_width (s : ImageState) : ℤ :=
  match s.imageCache with
  | none => 0
  | some i => i.width

/-- `Image.get_height` (src/simplequi/_image.py lines 72-77). -/
def ImageState.get_height (s : ImageState) : ℤ :=
  match s.imageCache with
  | none => 0
  | some i => i.height

/-- `get_pixmap` (src/simplequi/_image.py lines 80-113): return None while
the image is unloaded; otherwise return the cached pixmap for the key, or
compute it (copy the source rectangle centred at `image_coords`, rescale if
the target size differs, rotate if the rotation is non-zero), store it under
the key and return it. -/
def get_pixmap (s : ImageState) (image_coords image_rect target_rect : ℚ × ℚ)
    (rotation : ℚ) : Option Pixmap × ImageState :=
  match s.imageCache with
  | none => (none, s)
  | some orig_image =>
    let key : PixKey := (image_coords, image_rect, target_rect, rotation)
    match lookupKey key s.pixmapCache with
    | some pixmap => (some pixmap, s)
    | none =>
      let x := image_coords.1 - image_rect.1 / 2
      let y := image_coords.2 - image_rect.2 / 2
      let sect := QImageVal.copy orig_image x y image_rect.1 image_rect.2
      let sect :=
        if image_rect ≠ target_rect then
          QImageVal.scaled sect target_rect.1 target_rect.2
        else sect
      let sect :=
        if rotation ≠ 0 then QImageVal.transformed sect rotation
        else sect
      let pixmap : Pixmap := ⟨sect⟩
      (some pixmap, { s with pixmapCache := (key, pixmap) :: s.pixmapCache })

/-- `QImage(); image.loadFromData(data)` (external Qt): decodable data gives
an image with its dimensions, undecodable data leaves the null image of
width and height 0.  The decode outcome stands in for the raw bytes. -/
def qimage_loadFromData (decoded : Option (ℤ × ℤ)) : QImageModel :=
  match decoded with
  | some wh => ⟨wh.1, wh.2⟩
  | none => ⟨0, 0⟩

/-- `Image.__load_image` (src/simplequi/_image.py lines 48-63), the load
callback: unconditionally store the (possibly null) QImage in
`_IMAGE_CACHE[self]`, reset `_PIXMAP_CACHE[self]`, and pre-cache the
full-size pixmap with `get_pixmap(self, centre, size, size)`.  Any previous
state of the handle's two cache slots is overwritten. -/
def image_load_image (decoded : Option (ℤ × ℤ)) : ImageState :=
  let image := qimage_loadFromData decoded
  let width := image.width
  let height := image.height
  let size : ℚ × ℚ := ((width : ℚ), (height : ℚ))
  let centre : ℚ × ℚ := ((width : ℚ) / 2, (height : ℚ) / 2)
  let s1 : ImageState := { imageCache := some image, pixmapCache := [] }
  (get_pixmap s1 centre size size 0).2

/-- Attributes defined on class `Image` (src/simplequi/_image.py lines
34-77), with Python private-name mangling.  There is no
`load_image_from_url`. -/
def imageClassAttrs : List String :=
  ["__init__", "_Image__load_image", "get_width", "get_height"]

/-- `simplequi.load_image` (src/simplequi/_api.py lines 64-72):
`return Image.load_image_from_url(url)`.  The attribute lookup on the Image
class fails, so the call raises AttributeError before any handle is made;
had the attribute existed, the result would be a fresh handle in the
Loading state. -/
def load_image (_url : String) : Except PyErr ImageState :=
  if imageClassAttrs.contains ("load_image_from_url") then
    .ok { imageCache := none, pixmapCache := [] }
  else
    .error .attributeError

/-!
## Draw primitives and the recording canvas (src/simplequi/_canvas.py)

`Canvas.draw_*` records one `ObjectHolder(obj_type, args)` per call by
appending to the DrawingArea's current `__new_objects` list.  The embedding
passes that list explicitly and returns the extended list (or the exception
the call raises, in which case nothing was appended).
-/

/-- The `ObjectTypes` enum (src/simplequi/_canvas.py lines 178-186). -/
inductive ObjectTypes
  | Text
  | Line
  | Polyline
  | Polygon
  | Circle
  | Arc
  | Point
  | Image
  deriving DecidableEq, Repr

/-- The `args` tuple stored in an `ObjectHolder`, one shape per primitive
kind, exactly as each `draw_*` method builds it.  Note the polyline and
polygon entries: `draw_polyline`/`draw_polygon` pass the whole point list as
one argument to `__ensure_int_coords`, so what the conversion would store is
a single `(int, int)` pair, not a list of pairs.  Angles are stored as
coefficients of pi.  Image primitives store the handle's cache state. -/
inductive PrimArgs
  | text (text : String) (point : ℤ × ℤ) (font_size : ℤ)
      (font_color font_face : String)
  | line (point1 point2 : ℤ × ℤ) (line_width : ℤ) (line_color : String)
  | polyline (point_list : ℤ × ℤ) (line_width : ℤ) (line_color : String)
  | polygon (point_list : ℤ × ℤ) (line_width : ℤ) (line_color : String)
      (fill_color : Option String)
  | circle (center_point : ℤ × ℤ) (radius line_width : ℤ)
      (line_color : String) (fill_color : Option String)
  | arc (center_point : ℤ × ℤ) (radius : ℤ) (start_angle end_angle : ℚ)
      (line_width : ℤ) (line_color : String) (fill_color : Option String)
  | point (point : ℤ × ℤ) (color : String)
  | image (img : ImageState) (center_source width_height_source
      center_dest width_height_dest : ℤ × ℤ) (rotation : ℚ)
  deriving DecidableEq

/-- `ObjectHolder = namedtuple('ObjectHolder', ['obj_type', 'args'])`
(src/simplequi/_canvas.py line 43).  Equality is structural, as for the
namedtuple. -/
structure ObjectHolder where
  obj_type : ObjectTypes
  args : PrimArgs
  deriving DecidableEq

/-- `Canvas.draw_text` (src/simplequi/_canvas.py lines 464-473). -/
def draw_text (buf : List ObjectHolder) (text : String) (point : PyVal)
    (font_size : ℚ) (font_color font_face : String) :
    Except PyErr (List ObjectHolder) := do
  let p ← ensure_int_coord point
  let fs := ensure_int_value font_size
  .ok (buf ++ [⟨.Text, .text text p fs font_color font_face⟩])

/-- `Canvas.draw_line` (lines 475-482). -/
def draw_line (buf : List ObjectHolder) (point1 point2 : PyVal)
    (line_width : ℚ) (line_color : String) :
    Except PyErr (List ObjectHolder) := do
  let p1 ← ensure_int_coord point1
  let p2 ← ensure_int_coord point2
  let w := ensure_int_value line_width
  .ok (buf ++ [⟨.Line, .line p1 p2 w line_color⟩])

/-- `Canvas.draw_polyline` (lines 484-493).  The source converts with
`self.__ensure_int_coords(point_list)` — the whole list as one coordinate
argument — so the conversion applies `int()` to `point_list[0]` and
`point_list[1]`, which for a genuine list of points are tuples. -/
def draw_polyline (buf : List ObjectHolder) (point_list : PyVal)
    (line_width : ℚ) (line_color : String) :
    Except PyErr (List ObjectHolder) := do
  let pl ← ensure_int_coord point_list
  let w := ensure_int_value line_width
  .ok (buf ++ [⟨.Polyline, .polyline pl w line_color⟩])

/-- `Canvas.draw_polygon` (lines 495-507), converting the point list the
same way as `draw_polyline`. -/
def draw_polygon (buf : List ObjectHolder) (point_list : PyVal)
    (line_width : ℚ) (line_color : String) (fill_color : Option String) :
    Except PyErr (List ObjectHolder) := do
  let pl ← ensure_int_coord point_list
  let w := ensure_int_value line_width
  .ok (buf ++ [⟨.Polygon, .polygon pl w line_color fill_color⟩])

/-- `Canvas.draw_circle` (lines 509-520). -/
def draw_circle (buf : List ObjectHolder) (center_point : PyVal)
    (radius line_width : ℚ) (line_color : String)
    (fill_color : Option String) : Except PyErr (List ObjectHolder) := do
  let c ← ensure_int_coord center_point
  let r := ensure_int_value radius
  let w := ensure_int_value line_width
  .ok (buf ++ [⟨.Circle, .circle c r w line_color fill_color⟩])

/-- `Canvas.draw_arc` (lines 522-535); the start and end angles are stored
unconverted. -/
def draw_arc (buf : List ObjectHolder) (center_point : PyVal)
    (radius : ℚ) (start_angle end_angle : ℚ) (line_width : ℚ)
    (line_color : String) (fill_color : Option String) :
    Except PyErr (List ObjectHolder) := do
  let c ← ensure_int_coord center_point
  let r := ensure_int_value radius
  let w := ensure_int_value line_width
  .ok (buf ++ [⟨.Arc, .arc c r start_angle end_angle w line_color fill_color⟩])

/-- `Canvas.draw_point` (lines 537-542). -/
def draw_point (buf : List ObjectHolder) (point : PyVal) (color : String) :
    Except PyErr (List ObjectHolder) := do
  let p ← ensure_int_coord point
  .ok (buf ++ [⟨.Point, .point p color⟩])

/-- `Canvas.draw_image` (lines 544-569): first check
`if not image.get_height() or not image.get_width(): return` — a handle
reporting zero height or width records nothing — then convert the four
coordinate pairs and record the primitive. -/
def draw_image (buf : List ObjectHolder) (img : ImageState)
    (center_source width_height_source center_dest width_height_dest : PyVal)
    (rotation : ℚ) : Except PyErr (List ObjectHolder) :=
  if img.get_height = 0 ∨ img.get_width = 0 then .ok buf
  else do
    let cs ← ensure_int_coord center_source
    let ws ← ensure_int_coord width_height_source
    let cd ← ensure_int_coord center_dest
    let wd ← ensure_int_coord width_height_dest
    .ok (buf ++ [⟨.Image, .image img cs ws cd wd rotation⟩])

/-!
## Rendering (src/simplequi/_canvas.py lines 46-175 and 294-304)

Rendering turns the stored primitives into QPainter calls on the off-screen
pixmap.  A renderer that raises (for example because a stored colour string
is invalid) leaves the pixmap partially painted and propagates; the final
`self.update()` — the native repaint trigger — then never runs.
-/

/-- `radians_to_qpainter_angle` (src/simplequi/_canvas.py lines 46-49):
`int(360 * 16 * rads / (2 * pi))`.  The argument is represented by its
coefficient of pi, so the division by `2 * pi` leaves `rads / 2`; `int()`
truncates toward zero. -/
def radians_to_qpainter_angle (rads : ℚ) : ℤ :=
  pytrunc (360 * 16 * rads / 2)

/-- `get_circle_rect` (lines 90-97):
`(top_left_x, top_left_y, width, height)`. -/
def get_circle_rect (center_point : ℤ × ℤ) (radius : ℤ) : ℤ × ℤ × ℤ × ℤ :=
  (center_point.1 - radius, center_point.2 - radius, radius * 2, radius * 2)

/-- One QPainter call issued while painting the off-screen pixmap. -/
inductive PaintOp
  | fillBackground (c : Colour)
  | setPen (brushColour : Colour) (width : ℤ)
  | setBrush (c : Colour)
  | setFont (f : Font)
  | setTransform (tx ty : ℚ) (rotation : ℚ)
  | drawLine (x1 y1 x2 y2 : ℤ)
  | drawEllipse (x y w h : ℤ)
  | drawArc (x y w h : ℤ) (startAngle spanAngle : ℤ)
  | drawPie (x y w h : ℤ) (startAngle spanAngle : ℤ)
  | drawPoint (x y : ℤ)
  | drawText (x y : ℤ) (text : String)
  | drawPixmap (x y : ℚ) (p : Pixmap)
  deriving DecidableEq

/-- `set_painter_line_width_and_colour` (lines 62-66):
`QPen(QBrush(get_colour(line_colour)), line_width)`; an invalid colour
string raises here. -/
def set_painter_line_width_and_colour (line_width : ℤ) (line_colour : String) :
    Except PyErr (List PaintOp) :=
  (get_colour line_colour).map (fun c => [.setPen c line_width])

/-- `set_painter_fill_colour` (lines 69-72). -/
def set_painter_fill_colour (fill_colour : String) :
    Except PyErr (List PaintOp) :=
  (get_colour fill_colour).map (fun c => [.setBrush c])

/-- `set_painter_lines_and_fill` (lines 75-80): pen first, then the brush if
a fill colour is given. -/
def set_painter_lines_and_fill (line_width : ℤ) (line_colour : String)
    (fill_colour : Option String) : Except PyErr (List PaintOp) := do
  let pen ← set_painter_line_width_and_colour line_width line_colour
  match fill_colour with
  | none => .ok pen
  | some f => do
    let brush ← set_painter_fill_colour f
    .ok (pen ++ brush)

/-- `render_line` (lines 83-87). -/
def render_line (start fin : ℤ × ℤ) (line_width : ℤ) (line_colour : String) :
    Except PyErr (List PaintOp) := do
  let pen ← set_painter_line_width_and_colour line_width line_colour
  .ok (pen ++ [.drawLine start.1 start.2 fin.1 fin.2])

/-- `render_arc` (lines 100-112): convert the sweep `end_angle -
start_angle` and the start angle, set up the painter, then draw an arc (no
fill) or a pie (fill) with the sweep negated. -/
def render_arc (center_point : ℤ × ℤ) (radius : ℤ)
    (start_angle end_angle : ℚ) (line_width : ℤ) (line_colour : String)
    (fill_colour : Option String) : Except PyErr (List PaintOp) := do
  let arc_len := end_angle - start_angle
  let arc_len_native := radians_to_qpainter_angle arc_len
  let start_native := radians_to_qpainter_angle start_angle
  let rect := get_circle_rect center_point radius
  let ops ← set_painter_lines_and_fill line_width line_colour fill_colour
  match fill_colour with
  | none =>
    .ok (ops ++ [.drawArc rect.1 rect.2.1 rect.2.2.1 rect.2.2.2
      start_native (-arc_len_native)])
  | some _ =>
    .ok (ops ++ [.drawPie rect.1 rect.2.1 rect.2.2.1 rect.2.2.2
      start_native (-arc_len_native)])

/-- `render_circle` (lines 115-120). -/
def render_circle (center_point : ℤ × ℤ) (radius line_width : ℤ)
    (line_colour : String) (fill_colour : Option String) :
    Except PyErr (List PaintOp) := do
  let rect := get_circle_rect center_point radius
  let ops ← set_painter_lines_and_fill line_width line_colour fill_colour
  .ok (ops ++ [.drawEllipse rect.1 rect.2.1 rect.2.2.1 rect.2.2.2])

/-- `render_point` (lines 123-127). -/
def render_point (point : ℤ × ℤ) (colour : String) :
    Except PyErr (List PaintOp) := do
  let pen ← set_painter_line_width_and_colour 1 colour
  .ok (pen ++ [.drawPoint point.1 point.2])

/-- `render_polyline` (lines 130-135) applied to what `draw_polyline`
actually stores — a single pair of ints.  `point_list_to_polygon` iterates
the pair, so each "point" is a bare int and `QPoint(*point)` raises
TypeError (after the pen was set). -/
def render_polyline (_point_list : ℤ × ℤ) (line_width : ℤ)
    (line_colour : String) : Except PyErr (List PaintOp) := do
  let _pen ← set_painter_line_width_and_colour line_width line_colour
  .error .typeError

/-- `render_polygon` (lines 138-143), with the same stored-pair situation as
`render_polyline`. -/
def render_polygon (_point_list : ℤ × ℤ) (line_width : ℤ)
    (line_colour : String) (fill_colour : Option String) :
    Except PyErr (List PaintOp) := do
  let _ops ← set_painter_lines_and_fill line_width line_colour fill_colour
  .error .typeError

/-- `render_text` (lines 146-152). -/
def render_text (text : String) (point : ℤ × ℤ) (font_size : ℤ)
    (font_colour font_face : String) : Except PyErr (List PaintOp) := do
  let pen ← set_painter_line_width_and_colour 1 font_colour
  let font ← get_font font_size font_face
  .ok (pen ++ [.setFont font, .drawText point.1 point.2 text])

/-- `render_image` (lines 155-175): fetch the pixmap from the image's cache
(without the rotation — rotation is applied through the painter transform);
if it is None, draw nothing; otherwise translate/rotate when the rotation is
non-zero and draw the pixmap with its centre at the destination.  The cache
update performed by `get_pixmap` lives on the handle and is not part of the
painter-call list. -/
def render_image (img : ImageState) (source_centre source_window : ℤ × ℤ)
    (canvas_center canvas_size : ℤ × ℤ) (rotation : ℚ) :
    Except PyErr (List PaintOp) :=
  let pixmap := (get_pixmap img
    ((source_centre.1 : ℚ), (source_centre.2 : ℚ))
    ((source_window.1 : ℚ), (source_window.2 : ℚ))
    ((canvas_size.1 : ℚ), (canvas_size.2 : ℚ)) 0).1
  match pixmap with
  | none => .ok []
  | some pm =>
    let transformOps :=
      if rotation ≠ 0 then
        [PaintOp.setTransform (canvas_center.1 : ℚ) (canvas_center.2 : ℚ)
          rotation]
      else []
    let cc : ℚ × ℚ :=
      if rotation ≠ 0 then (0, 0)
      else ((canvas_center.1 : ℚ), (canvas_center.2 : ℚ))
    let x := cc.1 - (canvas_size.1 : ℚ) / 2
    let y := cc.2 - (canvas_size.2 : ℚ) / 2
    .ok (transformOps ++ [.drawPixmap x y pm])

/-- Dispatch through `OBJECT_RENDERERS` (lines 189-198).  A holder whose
`obj_type` does not match the shape of its `args` would call a renderer with
the wrong arity, a TypeError; the canvas never records such a holder. -/
def renderObject : ObjectHolder → Except PyErr (List PaintOp)
  | ⟨.Text, .text t p fs c face⟩ => render_text t p fs c face
  | ⟨.Line, .line p1 p2 w c⟩ => render_line p1 p2 w c
  | ⟨.Polyline, .polyline pl w c⟩ => render_polyline pl w c
  | ⟨.Polygon, .polygon pl w c f⟩ => render_polygon pl w c f
  | ⟨.Circle, .circle cp r w c f⟩ => render_circle cp r w c f
  | ⟨.Arc, .arc cp r sa ea w c f⟩ => render_arc cp r sa ea w c f
  | ⟨.Point, .point p c⟩ => render_point p c
  | ⟨.Image, .image i cs ws cd wd rot⟩ => render_image i cs ws cd wd rot
  | ⟨_, _⟩ => .error .typeError

/-- Painting the whole object list in order; the first renderer that raises
stops the loop and propagates its exception. -/
def renderObjects : List ObjectHolder → List PaintOp × Option PyErr
  | [] => ([], none)
  | obj :: rest =>
    match renderObject obj with
    | .error e => ([], some e)
    | .ok ops =>
      let tail := renderObjects rest
      (ops ++ tail.1, tail.2)

/-!
## The drawing area tick (src/simplequi/_canvas.py lines 276-304)
-/

/-- State of a `DrawingArea`: the stored object buffer `__objects`, the
`__started` flag, whether a draw handler is set, the background colour, the
off-screen pixmap contents and the number of `self.update()` calls (native
repaint triggers) performed so far. -/
structure DrawingAreaState where
  objects : List ObjectHolder
  started : Bool
  hasDrawHandler : Bool
  backgroundColour : Colour
  pixmap : List PaintOp
  repaintCount : ℕ
  deriving DecidableEq

/-- `DrawingArea.__render` (lines 294-304): reset the pixmap to the
background fill, paint every stored object in order, then `self.update()` —
one native repaint trigger.  If a renderer raises, the pixmap keeps the ops
painted so far and `update()` is never reached. -/
def DrawingArea_render (s : DrawingAreaState) :
    DrawingAreaState × Option PyErr :=
  let r := renderObjects s.objects
  match r.2 with
  | none =>
    ({ s with pixmap := PaintOp.fillBackground s.backgroundColour :: r.1,
              repaintCount := s.repaintCount + 1 }, none)
  | some e =>
    ({ s with pixmap := PaintOp.fillBackground s.backgroundColour :: r.1 },
      some e)

/-- `DrawingArea.__draw` (lines 281-292), one render tick: gated by
`@check_started` and a draw-handler check; `recorded` is the object list the
user draw callback produced on this tick (the fresh `__new_objects`).  If it
differs from the stored buffer, the buffer is replaced and `__render` runs;
if it is equal, nothing happens at all. -/
def DrawingArea_draw (s : DrawingAreaState) (recorded : List ObjectHolder) :
    DrawingAreaState × Option PyErr :=
  if ¬ s.started then (s, none)
  else if ¬ s.hasDrawHandler then (s, none)
  else if recorded ≠ s.objects then
    DrawingArea_render { s with objects := recorded }
  else (s, none)

deriving instance DecidableEq for Except

/-!
## Theorems
-/

/-- Claim C2: every `remove_tracked` call schedules one deferred quiescence
check; the check, when it runs, exits exactly when the tracked set and the
set of open top-level widgets are both empty in the state at that moment;
and `add_tracked` neither schedules a check nor exits.  The final conjunct
is the re-evaluation-at-run-time scenario: a resource registered between the
scheduling of a check and its run prevents the exit. -/
theorem c2_untrack_schedules_deferred_exit_check (s : AppState) (o o2 : ℕ) :
    (remove_tracked o s).pendingChecks = s.pendingChecks + 1 ∧
    (add_tracked o s).pendingChecks = s.pendingChecks ∧
    (add_tracked o s).running = s.running ∧
    ((check_for_exit s).running = false ↔
      (s.tracked = ∅ ∧ s.topLevelWidgets = ∅) ∨ s.running = false) ∧
    (check_for_exit (add_tracked o2 (remove_tracked o s))).running
      = s.running := by
  refine ⟨rfl, rfl, rfl, ?_, ?_⟩
  · by_cases h : s.tracked = ∅ ∧ s.topLevelWidgets = ∅
    · simp [check_for_exit, app_exit, h]
    · simp only [check_for_exit, app_exit]
      rw [if_neg h]
      simp [h]
  · have hne : insert o2 (s.tracked.erase o) ≠ ∅ := Finset.insert_ne_empty _ _
    simp only [check_for_exit, add_tracked, remove_tracked,
      queue_check_for_exit, app_exit]
    rw [if_neg]
    intro hcontra
    exact hne hcontra.1

/-- Claim C10: removing an object that is not in the tracked set raises no
error and leaves the set (and everything else except the queued check
count) unchanged, while still scheduling one deferred quiescence check. -/
theorem c10_remove_unknown_tracked_harmless (s : AppState) (o : ℕ)
    (h : o ∉ s.tracked) :
    (remove_tracked o s).tracked = s.tracked ∧
    (remove_tracked o s).pendingChecks = s.pendingChecks + 1 ∧
    (remove_tracked o s).running = s.running ∧
    (remove_tracked o s).topLevelWidgets = s.topLevelWidgets := by
  refine ⟨?_, rfl, rfl, rfl⟩
  simp [remove_tracked, queue_check_for_exit, Finset.erase_eq_of_not_mem h]

/-- Witness for C10 at the empty state and object 0. -/
theorem c10_remove_unknown_tracked_harmless_witness :
    (0 : ℕ) ∉ (AppState.mk ∅ ∅ 0 true).tracked ∧
    (remove_tracked 0 (AppState.mk ∅ ∅ 0 true)).tracked
      = (AppState.mk ∅ ∅ 0 true).tracked :=
  ⟨by decide,
    (c10_remove_unknown_tracked_harmless (AppState.mk ∅ ∅ 0 true) 0
      (by decide)).1⟩

/-- Claim C3: the code contradicts the claim (and the repository's own
tests): `StartStopTimer.start`/`stop` call `TheApp.add_timer` /
`TheApp.remove_timer`, but the `_app` module defines no `TheApp` and
`_AppWithRunningFlag` defines neither `add_timer` nor `remove_timer`, so a
started timer is never placed in the tracked set — every start or stop
raises instead. -/
theorem c3_timer_start_never_reaches_tracked_set (s : AppState) (t : ℕ) :
    startStopTimer_start s t = .error .importError ∧
    startStopTimer_stop s t = .error .importError ∧
    appModuleNames.contains ("TheApp") = false ∧
    appClassAttrs.contains ("add_timer") = false ∧
    appClassAttrs.contains ("remove_timer") = false :=
  ⟨rfl, rfl, rfl, rfl, rfl⟩

/-- Claim C4: the code contradicts the claim (and its own docstring and
tests): `load_image` calls `Image.load_image_from_url`, an attribute the
Image class does not define, so every call — for any URL — raises
AttributeError synchronously instead of returning a Loading-state handle. -/
theorem c4_load_image_raises_for_every_url (url : String) :
    load_image url = .error .attributeError ∧
    imageClassAttrs.contains ("load_image_from_url") = false :=
  ⟨rfl, rfl⟩

/-- Claim C9: a draw_image call with a handle reporting zero width or height
records no primitive (the frame buffer is returned unchanged), and a handle
whose image cache slot is still None (not finished loading) reports zero for
both dimensions. -/
theorem c9_draw_image_skips_unready_handles (buf : List ObjectHolder)
    (img : ImageState) (cs ws cd wd : PyVal) (rot : ℚ) :
    (img.get_width = 0 ∨ img.get_height = 0 →
      draw_image buf img cs ws cd wd rot = .ok buf) ∧
    (img.imageCache = none → img.get_width = 0 ∧ img.get_height = 0) := by
  constructor
  · intro h
    have hcond : img.get_height = 0 ∨ img.get_width = 0 := h.symm
    simp [draw_image, hcond]
  · intro h
    simp [ImageState.get_width, ImageState.get_height, h]

/-- Witness for C9: a still-loading handle has zero dimensions and its
draw_image call leaves an empty frame buffer empty. -/
theorem c9_draw_image_skips_unready_handles_witness :
    ((ImageState.mk none []).get_width = 0 ∨
      (ImageState.mk none []).get_height = 0) ∧
    draw_image [] (ImageState.mk none []) (.pt 500 600) (.pt 1000 1200)
      (.pt 75 75) (.pt 150 150) (1/2) = .ok [] ∧
    ((ImageState.mk none []).get_width = 0 ∧
      (ImageState.mk none []).get_height = 0) :=
  ⟨Or.inl rfl,
    (c9_draw_image_skips_unready_handles [] (ImageState.mk none [])
      (.pt 500 600) (.pt 1000 1200) (.pt 75 75) (.pt 150 150) (1/2)).1
      (Or.inl rfl),
    (c9_draw_image_skips_unready_handles [] (ImageState.mk none [])
      (.pt 500 600) (.pt 1000 1200) (.pt 75 75) (.pt 150 150) (1/2)).2 rfl⟩

/-- Claim C6: the code contradicts the claim (and the repository's own
test_drawing_calls): `draw_polyline` and `draw_polygon` pass the whole point
list as a single coordinate to `__ensure_int_coords`, which applies `int()`
to the first two points — tuples — raising TypeError for every genuine
point list, instead of truncating each point.  Scalar-point truncation (the
`draw_point` part of the claim) does work: (10.7, 4.2) is stored as
(10, 4). -/
theorem c6_point_list_truncation_raises :
    draw_polyline [] (.pts [(0, 10.7), (10.9, 10.5), (5, 5)]) 4.6 "red"
      = .error .typeError ∧
    draw_polygon [] (.pts [(0, 10), (10, 10), (10, 0), (0, 0)]) 2 "blue"
      (some "green") = .error .typeError ∧
    draw_point [] (.pt 10.7 4.2) "red"
      = .ok [⟨.Point, .point (10, 4) "red"⟩] := by
  refine ⟨rfl, rfl, ?_⟩
  have hEval : draw_point [] (.pt 10.7 4.2) "red"
      = .ok [⟨.Point, .point (pytrunc 10.7, pytrunc 4.2) "red"⟩] := rfl
  have h1 : pytrunc (10.7 : ℚ) = 10 := by norm_num [pytrunc]; decide
  have h2 : pytrunc (4.2 : ℚ) = 4 := by norm_num [pytrunc]; decide
  rw [hEval, h1, h2]

/-- Concrete drawing-area state used for claim C1: empty stored buffer,
started, with a draw handler. -/
def c1State : DrawingAreaState :=
  { objects := [], started := true, hasDrawHandler := true,
    backgroundColour := .named "black", pixmap := [], repaintCount := 0 }

/-- A recorded list whose single primitive carries an invalid colour
string (recordable, see claim C5, but unrenderable). -/
def c1BadList : List ObjectHolder :=
  [⟨.Circle, .circle (150, 100) 99 2 "no-such-colour!" none⟩]

/-- Counterexample to claim C1 as stated: a tick whose recorded list differs
structurally from the stored buffer but contains an invalid colour string
swaps the buffer and then raises inside `__render` before `self.update()`,
so no native repaint is triggered — not "exactly one". -/
theorem c1_changed_list_without_repaint_counterexample :
    c1BadList ≠ c1State.objects ∧
    (DrawingArea_draw c1State c1BadList).1.objects = c1BadList ∧
    (DrawingArea_draw c1State c1BadList).1.repaintCount
      = c1State.repaintCount ∧
    (DrawingArea_draw c1State c1BadList).2 = some .valueError := by
  refine ⟨?_, rfl, rfl, rfl⟩
  intro h
  exact List.cons_ne_nil _ _ h

/-- Claim C1, amended: on a started surface with a draw handler, a tick
whose recorded list equals the stored buffer does nothing (no repaint, no
buffer swap, no error); a tick whose recorded list differs replaces the
stored buffer and triggers exactly one native repaint provided every
primitive renders successfully — if a renderer raises, the buffer is still
replaced but the exception propagates and no repaint is triggered. -/
theorem c1_render_tick_diff_suppression (s : DrawingAreaState)
    (recorded : List ObjectHolder) (hs : s.started = true)
    (hh : s.hasDrawHandler = true) :
    (recorded = s.objects → DrawingArea_draw s recorded = (s, none)) ∧
    (recorded ≠ s.objects →
      (DrawingArea_draw s recorded).1.objects = recorded ∧
      ((renderObjects recorded).2 = none →
        (DrawingArea_draw s recorded).1.repaintCount = s.repaintCount + 1 ∧
        (DrawingArea_draw s recorded).2 = none) ∧
      (∀ e, (renderObjects recorded).2 = some e →
        (DrawingArea_draw s recorded).1.repaintCount = s.repaintCount ∧
        (DrawingArea_draw s recorded).2 = some e)) := by
  constructor
  · intro heq
    simp [DrawingArea_draw, hs, hh, heq]
  · intro hne
    have hd : DrawingArea_draw s recorded
        = DrawingArea_render { s with objects := recorded } := by
      simp [DrawingArea_draw, hs, hh, hne]
    rw [hd]
    refine ⟨?_, ?_, ?_⟩
    · cases hr : (renderObjects recorded).2 <;>
        simp [DrawingArea_render, hr]
    · intro hr
      simp [DrawingArea_render, hr]
    · intro e hr
      simp [DrawingArea_render, hr]

/-- Witness for C1 (amended) at a concrete state: an equal recorded list
leaves the state untouched. -/
theorem c1_render_tick_diff_suppression_witness :
    c1State.started = true ∧ c1State.hasDrawHandler = true ∧
    DrawingArea_draw c1State [] = (c1State, none) :=
  ⟨rfl, rfl, (c1_render_tick_diff_suppression c1State [] rfl rfl).1 rfl⟩

/-- Counterexample to claim C5 as stated: "no-such-colour!" is an invalid
colour string (get_colour raises ValueError on it), yet the draw_circle
call succeeds and records the primitive with the raw string; the ValueError
only appears when the primitive is rendered. -/
theorem c5_invalid_colour_not_raised_at_draw_call :
    get_colour "no-such-colour!" = .error .valueError ∧
    draw_circle [] (.pt 150 100) 99 2 "no-such-colour!" (some "purple")
      = .ok [⟨.Circle,
          .circle (150, 100) 99 2 "no-such-colour!" (some "purple")⟩] ∧
    renderObject
        ⟨.Circle, .circle (150, 100) 99 2 "no-such-colour!" (some "purple")⟩
      = .error .valueError := by
  exact ⟨rfl, rfl, rfl⟩

/-- Claim C5, amended: a draw-recorder call given an invalid colour string
does not raise at record time — the primitive is stored with the raw
string — and the value error is raised at render time, when the painter is
set up for that primitive. -/
theorem c5_colour_error_deferred_to_render (x y radius width : ℚ)
    (c : String) (fill : Option String) (e : PyErr)
    (h : get_colour c = .error e) :
    draw_circle [] (.pt x y) radius width c fill
      = .ok [⟨.Circle, .circle (pytrunc x, pytrunc y) (pytrunc radius)
          (pytrunc width) c fill⟩] ∧
    renderObject ⟨.Circle, .circle (pytrunc x, pytrunc y) (pytrunc radius)
        (pytrunc width) c fill⟩ = .error e := by
  refine ⟨rfl, ?_⟩
  have hpen : set_painter_line_width_and_colour (pytrunc width) c
      = .error e := by
    simp [set_painter_line_width_and_colour, h, Except.map]
  have hfill : set_painter_lines_and_fill (pytrunc width) c fill
      = .error e := by
    simp only [set_painter_lines_and_fill, hpen]
    rfl
  simp only [renderObject, render_circle, hfill]
  rfl

/-- Witness for C5 (amended) at the invalid colour "no-such-colour!". -/
theorem c5_colour_error_deferred_to_render_witness :
    get_colour "no-such-colour!" = .error .valueError ∧
    draw_circle [] (.pt 150 100) 99 2 "no-such-colour!" none
      = .ok [⟨.Circle, .circle (pytrunc 150, pytrunc 100) (pytrunc 99)
          (pytrunc 2) "no-such-colour!" none⟩] :=
  ⟨rfl, (c5_colour_error_deferred_to_render 150 100 99 2 "no-such-colour!"
    none .valueError rfl).1⟩

/-- Helper: once the image cache slot holds a decoded (possibly null)
QImage, `get_pixmap` always returns a pixmap, cached or fresh. -/
theorem get_pixmap_fst_of_loaded (s : ImageState) (a b c : ℚ × ℚ) (r : ℚ)
    (i : QImageModel) (h : s.imageCache = some i) :
    (get_pixmap s a b c r).1 ≠ none := by
  simp only [get_pixmap, h]
  cases hl : lookupKey (a, b, c, r) s.pixmapCache <;> simp [hl]

/-- Claim C7: the code contradicts the claim (and the repository's own
test_image.test_invalid_file): after the load callback runs on undecodable
data the handle is Failed, not Ready, yet `_IMAGE_CACHE` holds the null
QImage, the pixmap cache already holds a placeholder entry, and a
`get_pixmap` call returns a pixmap instead of None. -/
theorem c7_failed_decode_caches_placeholder :
    (image_load_image none).imageCache = some (QImageModel.mk 0 0) ∧
    (image_load_image none).pixmapCache.length = 1 ∧
    (get_pixmap (image_load_image none) (10, 10) (10, 10) (10, 10) 0).1
      ≠ none := by
  refine ⟨rfl, rfl, ?_⟩
  exact get_pixmap_fst_of_loaded _ _ _ _ _ (QImageModel.mk 0 0) rfl

/-- Counterexample to claim C8 as stated: the conversion truncates
(Python `int()`), it does not round — at 17π/28800 radians the scaled value
is 1.7, which the code converts to 1 while rounding gives 2. -/
theorem c8_conversion_is_not_rounding :
    radians_to_qpainter_angle (17 / 28800) = 1 ∧
    (round ((360 * 16 : ℚ) * (17 / 28800) / (2 : ℚ)) : ℤ) = 2 ∧
    radians_to_qpainter_angle (17 / 28800)
      ≠ round ((360 * 16 : ℚ) * (17 / 28800) / (2 : ℚ)) := by
  have hval : (360 * 16 : ℚ) * (17 / 28800) / (2 : ℚ) = 17 / 10 := by
    norm_num
  have h1 : radians_to_qpainter_angle (17 / 28800) = 1 := by
    rw [radians_to_qpainter_angle.eq_def, pytrunc.eq_def, hval]
    norm_num
    decide
  have h2 : (round ((360 * 16 : ℚ) * (17 / 28800) / (2 : ℚ)) : ℤ) = 2 := by
    rw [hval, round_eq]
    norm_num
  refine ⟨h1, h2, ?_⟩
  rw [h1, h2]
  decide

/-- Claim C8, amended: the conversion is truncation toward zero of
`angle * 360 * 16 / (2π)` (Python `int()`, not `round`); it is still exact
at the four cardinal angles, where the scaled value is an integer, and
`render_arc` negates the converted sweep: an arc from π to 3π/2 (here the
coefficients 1 and 3/2) at centre (105, 94), radius 20, is drawn with
native start 180·16 and native sweep −90·16. -/
theorem c8_cardinal_angles_and_negated_sweep :
    radians_to_qpainter_angle 0 = 0 ∧
    radians_to_qpainter_angle (1 / 2) = 90 * 16 ∧
    radians_to_qpainter_angle 1 = 180 * 16 ∧
    radians_to_qpainter_angle (3 / 2) = 270 * 16 ∧
    render_arc (105, 94) 20 1 (3 / 2) 15 "black" none
      = .ok [.setPen (.named "black") 15,
          .drawArc 85 74 40 40 (180 * 16) (-(90 * 16))] := by
  have hc : get_colour "black" = .ok (Colour.named "black") := rfl
  have h0 : radians_to_qpainter_angle 0 = 0 := by
    rw [radians_to_qpainter_angle.eq_def, pytrunc.eq_def]
    norm_num
  have hhalf : radians_to_qpainter_angle (1 / 2) = 1440 := by
    have : (360 * 16 : ℚ) * (1 / 2) / 2 = 1440 := by norm_num
    rw [radians_to_qpainter_angle.eq_def, pytrunc.eq_def, this]
    decide
  have hone : radians_to_qpainter_angle 1 = 2880 := by
    have : (360 * 16 : ℚ) * 1 / 2 = 2880 := by norm_num
    rw [radians_to_qpainter_angle.eq_def, pytrunc.eq_def, this]
    decide
  have hthree : radians_to_qpainter_angle (3 / 2) = 4320 := by
    have : (360 * 16 : ℚ) * (3 / 2) / 2 = 4320 := by norm_num
    rw [radians_to_qpainter_angle.eq_def, pytrunc.eq_def, this]
    decide
  have hsweep : radians_to_qpainter_angle (3 / 2 - 1) = 1440 := by
    have : (3 / 2 - 1 : ℚ) = 1 / 2 := by norm_num
    rw [this]
    exact hhalf
  refine ⟨h0, hhalf, hone, hthree, ?_⟩
  simp only [render_arc, set_painter_lines_and_fill,
    set_painter_line_width_and_colour, hc, hsweep, hone, get_circle_rect,
    Except.map]
  rfl
